import Mathlib

/-!
Shallow embedding of the StreatMart order/inventory/review core
(server route handlers for orders and reviews, plus the Mongoose
schemas for Material, Order and Review).

Modelling conventions:
* MongoDB ObjectIds are modelled as `String`; a JS falsy id is the
  empty string.
* JS numbers used for money and averages are modelled as `ℚ`;
  stock and quantities (integers ≥ 0 in the schemas) as `Nat`.
* `Date` values are opaque here: a timestamp is represented by the
  string it was constructed from, and "the current time" is an
  explicit `now` argument threaded into the handler.
* The database is an explicit `St` record of lists; `save()` on a
  fetched document writes it back by id.
* Each Express handler becomes a function `St → … → St × Except Err α`:
  the returned `St` is the database after the request, faithful to the
  fact that `await doc.save()` persists immediately even when the
  handler later returns an error response.
-/

/-- User roles checked by the role middleware. -/
inductive Role
  | vendor
  | supplier
deriving DecidableEq

/-- Payment method field of the order schema (default cash). -/
inductive PaymentMethod
  | cash
  | online
deriving DecidableEq

/-- Payment status field of the order schema (default pending). -/
inductive PaymentStatus
  | pending
  | paid
  | failed
deriving DecidableEq

/-- The user entity, restricted to the fields the core reads or writes:
identity, role, phone, and the denormalized supplier rating fields
(`rating`, `totalRatings`) written by the rating aggregator. -/
structure User where
  id : String
  role : Role
  phone : String
  rating : ℚ := 0
  totalRatings : Nat := 0
deriving DecidableEq

/-- The material entity (materialSchema), restricted to the fields the
order core reads: owning supplier, name, unit price, unit, stock and
availability.  Presentation-only fields (category, image, description,
deliveryRadiusKm, minOrderQuantity, qualityGrade) are not consumed by
the order or review handlers and are omitted. -/
structure Material where
  id : String
  supplierId : String
  name : String
  unitPrice : ℚ
  unit : String
  stock : Nat
  isAvailable : Bool
deriving DecidableEq

/-- Order status enum of orderSchema. -/
inductive Status
  | pending
  | confirmed
  | out_for_delivery
  | delivered
  | cancelled
deriving DecidableEq

/-- One snapshot line of orderSchema.items (orderItemSchema). -/
structure OrderItem where
  materialId : String
  name : String
  quantity : Nat
  unitPrice : ℚ
  unit : String
deriving DecidableEq

/-- The order entity (orderSchema). `status` defaults to pending,
payment fields to cash/pending; notes and the delivery timestamps are
absent until written. -/
structure Order where
  id : String
  vendorId : String
  supplierId : String
  items : List OrderItem
  subtotal : ℚ
  deliveryFee : ℚ := 0
  totalAmount : ℚ
  status : Status := .pending
  deliveryAddress : String
  vendorPhone : String
  supplierNotes : Option String := none
  estimatedDeliveryTime : Option String := none
  actualDeliveryTime : Option String := none
  paymentMethod : PaymentMethod := .cash
  paymentStatus : PaymentStatus := .pending
deriving DecidableEq

/-- Optional sub-ratings of reviewSchema.categories. -/
structure Categories where
  quality : Option Nat := none
  delivery : Option Nat := none
  service : Option Nat := none
deriving DecidableEq

/-- The review entity (reviewSchema). -/
structure Review where
  vendorId : String
  supplierId : String
  orderId : String
  rating : Nat
  comment : Option String := none
  categories : Option Categories := none
deriving DecidableEq

/-- The persistent store: users, materials, orders, reviews. -/
structure St where
  users : List User := []
  materials : List Material := []
  orders : List Order := []
  reviews : List Review := []
deriving DecidableEq

deriving instance DecidableEq for Except

/-- `Material.findById`. -/
def materialFindById (ms : List Material) (mid : String) : Option Material :=
  ms.find? (fun m => decide (m.id = mid))

/-- `material.save()`: write the mutated document back by id. -/
def saveMaterial (ms : List Material) (m : Material) : List Material :=
  ms.map (fun x => if x.id = m.id then m else x)

/-- One line of the request cart: `{ materialId, quantity }`. -/
structure CartItem where
  materialId : String
  quantity : Nat
deriving DecidableEq

/-- Body of `POST /place`: `{ supplierId, items, deliveryAddress }`. -/
structure PlaceReq where
  supplierId : String
  items : List CartItem
  deliveryAddress : String
deriving DecidableEq

/-- Error responses of `POST /place`.  In the spec's taxonomy,
`insufficientStock` is the ConflictError, `materialNotAvailable` the
NotFoundError/availability failure, `missingFields` the
ValidationError, and `authorization` the AuthorizationError raised by
the role middleware. -/
inductive PlaceErr
  | authorization
  | missingFields
  | materialNotAvailable (materialId : String)
  | insufficientStock (name : String) (available : Nat)
deriving DecidableEq

/-- The `for (const item of items)` loop of the place handler: fetch
the material, reject if missing/unavailable or stock < quantity,
otherwise accumulate the subtotal and the snapshot line, then
decrement stock and `save()` — the save happens inside the loop, so
materials mutated before a later rejection stay mutated.  Returns the
materials list as left by the loop, with either the error of the first
bad line or the accumulated subtotal and snapshot lines. -/
def placeLoop (ms : List Material) (items : List CartItem) (subtotal : ℚ)
    (acc : List OrderItem) : List Material × Except PlaceErr (ℚ × List OrderItem) :=
  match items with
  | [] => (ms, .ok (subtotal, acc))
  | item :: rest =>
    match materialFindById ms item.materialId with
    | none => (ms, .error (.materialNotAvailable item.materialId))
    | some m =>
      if m.isAvailable = false then
        (ms, .error (.materialNotAvailable item.materialId))
      else if m.stock < item.quantity then
        (ms, .error (.insufficientStock m.name m.stock))
      else
        placeLoop (saveMaterial ms { m with stock := m.stock - item.quantity }) rest
          (subtotal + m.unitPrice * item.quantity)
          (acc ++ [{ materialId := m.id, name := m.name, quantity := item.quantity,
                     unitPrice := m.unitPrice, unit := m.unit }])

/-- `POST /place` (vendors only).  Modelled from the spec for the role
gate: the `requireRole(['vendor'])` middleware (server/middleware/auth.js,
not part of the sources) rejects any caller whose role is not in the
allowed list with an AuthorizationError.  The handler then validates
required fields, runs the cart loop, and on success persists the order
with the fixed delivery fee of 50 and the schema-default status
pending.  `oid` is the id the store assigns to the new order. -/
def placeOrder (st : St) (actor : User) (req : PlaceReq) (oid : String) :
    St × Except PlaceErr Order :=
  if actor.role ≠ Role.vendor then
    (st, .error .authorization)
  else if req.supplierId = "" ∨ req.items = [] ∨ req.deliveryAddress = "" then
    (st, .error .missingFields)
  else
    match placeLoop st.materials req.items 0 [] with
    | (ms, .error e) => ({ st with materials := ms }, .error e)
    | (ms, .ok (subtotal, orderItems)) =>
      let deliveryFee : ℚ := 50
      let order : Order :=
        { id := oid, vendorId := actor.id, supplierId := req.supplierId,
          items := orderItems, subtotal := subtotal, deliveryFee := deliveryFee,
          totalAmount := subtotal + deliveryFee,
          deliveryAddress := req.deliveryAddress, vendorPhone := actor.phone }
      ({ st with materials := ms, orders := st.orders ++ [order] }, .ok order)

/-- Σ unitPrice × quantity over a list of snapshot lines. -/
def itemsSubtotal (items : List OrderItem) : ℚ :=
  (items.map (fun i => i.unitPrice * (i.quantity : ℚ))).sum

/-- Body of `PATCH /:orderId/status`:
`{ status, supplierNotes, estimatedDeliveryTime }`.  `status` is absent
or one of the five enum values; notes and eta are raw request strings
(a JS falsy value — absent or empty — is not stored). -/
structure TransReq where
  status : Option Status := none
  supplierNotes : Option String := none
  estimatedDeliveryTime : Option String := none
deriving DecidableEq

/-- Error responses of `PATCH /:orderId/status`.  In the spec's
taxonomy `invalidTransition` (which carries the current and the
requested status, as the response message does) is the
ConflictError and `authorization` the AuthorizationError raised by the
role middleware. -/
inductive TransErr
  | authorization
  | statusRequired
  | notFoundOrUnauthorized
  | invalidTransition (current requested : Status)
deriving DecidableEq

/-- The `validTransitions` table of the status handler. -/
def validTransitions : Status → List Status
  | .pending => [.confirmed, .cancelled]
  | .confirmed => [.out_for_delivery, .cancelled]
  | .out_for_delivery => [.delivered]
  | .delivered => []
  | .cancelled => []

/-- `Order.findOne({ _id: orderId, supplierId: actorId })`. -/
def findSupplierOrder (os : List Order) (oid actorId : String) : Option Order :=
  os.find? (fun o => decide (o.id = oid ∧ o.supplierId = actorId))

/-- `order.save()`: write the mutated document back by id. -/
def saveOrder (os : List Order) (o : Order) : List Order :=
  os.map (fun x => if x.id = o.id then o else x)

/-- `PATCH /:orderId/status` (suppliers only).  Modelled from the spec
for the role gate: the `requireRole(['supplier'])` middleware
(server/middleware/auth.js, not part of the sources) rejects any
caller whose role is not in the allowed list with an
AuthorizationError.  The handler requires a status, looks the order up
by id and acting supplier, checks the transition table, then updates
status, stores notes/eta when truthy (non-empty), and stamps
`actualDeliveryTime` with the current time when the new status is
delivered. -/
def transition (st : St) (actor : User) (orderId : String) (req : TransReq)
    (now : String) : St × Except TransErr Order :=
  if actor.role ≠ Role.supplier then
    (st, .error .authorization)
  else
    match req.status with
    | none => (st, .error .statusRequired)
    | some newStatus =>
      match findSupplierOrder st.orders orderId actor.id with
      | none => (st, .error .notFoundOrUnauthorized)
      | some order =>
        if newStatus ∉ validTransitions order.status then
          (st, .error (.invalidTransition order.status newStatus))
        else
          let o1 := { order with status := newStatus }
          let o2 := match req.supplierNotes with
                    | some s => if s = "" then o1 else { o1 with supplierNotes := some s }
                    | none => o1
          let o3 := match req.estimatedDeliveryTime with
                    | some t => if t = "" then o2 else { o2 with estimatedDeliveryTime := some t }
                    | none => o2
          let o4 := if newStatus = Status.delivered
                    then { o3 with actualDeliveryTime := some now } else o3
          ({ st with orders := saveOrder st.orders o4 }, .ok o4)

/-- Body of `POST /` on the review router:
`{ orderId, supplierId, rating, comment, categories }`. -/
structure ReviewReq where
  orderId : String
  supplierId : String
  rating : Nat
  comment : Option String := none
  categories : Option Categories := none
deriving DecidableEq

/-- Error responses of the review handler.  In the spec's taxonomy
`alreadyExists` (duplicate review for an order) is the ConflictError,
`notEligible` covers not found / wrong vendor / not delivered, and
`authorization` is the AuthorizationError raised by the role
middleware. -/
inductive ReviewErr
  | authorization
  | missingFields
  | notEligible
  | alreadyExists
deriving DecidableEq

/-- `Order.findOne({ _id: orderId, vendorId, status: 'delivered' })`. -/
def findEligibleOrder (os : List Order) (oid vendorId : String) : Option Order :=
  os.find? (fun o => decide (o.id = oid ∧ o.vendorId = vendorId ∧ o.status = Status.delivered))

/-- All reviews for one supplier: the aggregation `$match` stage as
written in `updateSupplierRating`.  In the running program that
aggregation is never reached (see `updateSupplierRating`); this
definition serves to state the recompute the source text writes and
the spec describes, for comparison with what the code actually does. -/
def reviewsForSupplier (rs : List Review) (sid : String) : List Review :=
  rs.filter (fun r => decide (r.supplierId = sid))

/-- `Math.round(x * 10) / 10`: round to one decimal, as written in
`updateSupplierRating` (never reached at runtime, see there).
Mathlib's `round` on `ℚ` is `⌊x + 1/2⌋`, which agrees with JS
`Math.round`. -/
def roundTo1 (x : ℚ) : ℚ :=
  ((round (x * 10) : ℤ) : ℚ) / 10

/-- `updateSupplierRating` of the reviews router.  Its body first
evaluates `mongoose.Types.ObjectId(supplierId)` inside the aggregation
pipeline argument — but the reviews module never imports `mongoose`,
so this throws a ReferenceError before `Review.aggregate` runs; the
function's own try/catch logs and swallows the error, and
`User.findByIdAndUpdate` is never reached.  Faithfully, every call
leaves the users collection unchanged; the aggregate-round-and-write
the function's text describes is dead code (its pieces are kept above
as `reviewsForSupplier` and `roundTo1` to state intended values). -/
def updateSupplierRating (users : List User) (reviews : List Review)
    (sid : String) : List User :=
  users

/-- The review document the handler constructs from the caller and the
request body. -/
def mkReview (actor : User) (req : ReviewReq) : Review :=
  { vendorId := actor.id, supplierId := req.supplierId, orderId := req.orderId,
    rating := req.rating, comment := req.comment, categories := req.categories }

/-- `POST /` on the review router (vendors only).  Modelled from the
spec for the role gate: the `requireRole(['vendor'])` middleware
(server/middleware/auth.js, not part of the sources) rejects any
caller whose role is not in the allowed list with an
AuthorizationError.  The handler validates required fields (a falsy
rating, 0, counts as missing), requires a delivered order of the
calling vendor, rejects a duplicate review for the order, then saves
the review and calls `updateSupplierRating` for the declared supplier
(a call that never updates anything — see its doc comment). -/
def addReview (st : St) (actor : User) (req : ReviewReq) :
    St × Except ReviewErr Review :=
  if actor.role ≠ Role.vendor then
    (st, .error .authorization)
  else if req.orderId = "" ∨ req.supplierId = "" ∨ req.rating = 0 then
    (st, .error .missingFields)
  else
    match findEligibleOrder st.orders req.orderId actor.id with
    | none => (st, .error .notEligible)
    | some _ =>
      if (st.reviews.find? (fun r => decide (r.orderId = req.orderId))).isSome then
        (st, .error .alreadyExists)
      else
        let review : Review := mkReview actor req
        let reviews := st.reviews ++ [review]
        ({ st with reviews := reviews,
                   users := updateSupplierRating st.users reviews req.supplierId },
         .ok review)

/-- Material M1 of the spec's placement scenario (stock 10, price 20). -/
def matM1 : Material :=
  { id := "M1", supplierId := "S1", name := "M1", unitPrice := 20, unit := "kg",
    stock := 10, isAvailable := true }

/-- Material M2 of the spec's placement scenario (stock 5, price 50). -/
def matM2 : Material :=
  { id := "M2", supplierId := "S1", name := "M2", unitPrice := 50, unit := "kg",
    stock := 5, isAvailable := true }

/-- The vendor placing the scenario's orders. -/
def vendorV1 : User := { id := "V1", role := .vendor, phone := "123" }

/-- Store of the spec's placement scenario. -/
def stPlace : St := { materials := [matM1, matM2] }

/-- The scenario cart: 2 × M1 and 1 × M2 for supplier S1. -/
def reqPlace : PlaceReq :=
  { supplierId := "S1", items := [⟨"M1", 2⟩, ⟨"M2", 1⟩], deliveryAddress := "addr" }

/-- The order the place handler creates for the scenario cart. -/
def orderPlaced : Order :=
  { id := "o1", vendorId := "V1", supplierId := "S1",
    items := [⟨"M1", "M1", 2, 20, "kg"⟩, ⟨"M2", "M2", 1, 50, "kg"⟩],
    subtotal := 90, deliveryFee := 50, totalAmount := 140,
    deliveryAddress := "addr", vendorPhone := "123" }

/-- M2 with empty stock, for the failing-cart scenario. -/
def matM2empty : Material := { matM2 with stock := 0 }

/-- Store of the spec's failing-cart scenario: stock(M1)=10, stock(M2)=0. -/
def stPartial : St := { materials := [matM1, matM2empty] }

/-- A material owned by supplier S1, targeted by a cart that declares
supplier S2. -/
def matM9 : Material :=
  { id := "M9", supplierId := "S1", name := "M9", unitPrice := 20, unit := "kg",
    stock := 10, isAvailable := true }

/-- Store for the ownership-mismatch placement. -/
def stOwn : St := { materials := [matM9] }

/-- Cart naming supplier S2 while its only material belongs to S1. -/
def reqOwn : PlaceReq :=
  { supplierId := "S2", items := [⟨"M9", 2⟩], deliveryAddress := "addr" }

/-- The order the place handler creates for the mismatched cart,
attributed to the declared supplier S2. -/
def orderMis : Order :=
  { id := "o9", vendorId := "V1", supplierId := "S2",
    items := [⟨"M9", "M9", 2, 20, "kg"⟩], subtotal := 40, deliveryFee := 50,
    totalAmount := 90, deliveryAddress := "addr", vendorPhone := "123" }

/-- The store after the mismatched placement: the S1-owned material's
stock is decremented and the order attributed to S2 is stored. -/
def stOwnAfter : St :=
  { materials := [{ matM9 with stock := 8 }], orders := [orderMis] }

/-- The supplier actor S1 of the transition scenarios. -/
def supS1 : User := { id := "S1", role := .supplier, phone := "999" }

/-- A second supplier S2, target of the mismatched review. -/
def supS2 : User := { id := "S2", role := .supplier, phone := "888" }

/-- A pending order of supplier S1. -/
def orderPend : Order :=
  { id := "o4", vendorId := "V1", supplierId := "S1",
    items := [⟨"M1", "M1", 2, 20, "kg"⟩], subtotal := 40, deliveryFee := 50,
    totalAmount := 90, deliveryAddress := "addr", vendorPhone := "123" }

/-- A confirmed order of supplier S1. -/
def orderConf : Order := { orderPend with id := "o2", status := .confirmed }

/-- A delivered order of supplier S1. -/
def orderDone : Order := { orderPend with id := "o3", status := .delivered }

/-- An out-for-delivery order of supplier S1. -/
def orderOut : Order := { orderPend with id := "o5", status := .out_for_delivery }

/-- Store of the transition scenarios. -/
def stTrans : St :=
  { users := [supS1, vendorV1], materials := [matM1],
    orders := [orderPend, orderConf, orderDone, orderOut] }

/-- A delivered order used for the mismatched review scenario. -/
def orderDelM : Order := { orderPend with id := "oX", status := .delivered }

/-- Store for the review-supplier-mismatch scenario: the order belongs
to supplier S1; users S1, S2 and the vendor are present. -/
def stMis : St := { users := [supS1, supS2, vendorV1], orders := [orderDelM] }

/-- Review request naming a different supplier (S2) than the order's (S1). -/
def reqMisRev : ReviewReq := { orderId := "oX", supplierId := "S2", rating := 5 }

/-- The review the handler stores for the mismatched request. -/
def revMis : Review :=
  { vendorId := "V1", supplierId := "S2", orderId := "oX", rating := 5 }

/-- Request cancelling an order. -/
def reqCancel : TransReq := { status := some Status.cancelled }

/-- The confirmed order after cancellation. -/
def orderConfCancelled : Order := { orderConf with status := .cancelled }

/-- Request asking for the confirmed status. -/
def reqConfirm : TransReq := { status := some Status.confirmed }

/-- Request asking for the out-for-delivery status. -/
def reqOut : TransReq := { status := some Status.out_for_delivery }

/-- Request confirming an order while "providing" an empty notes string
(a falsy value in the handler's truthiness check). -/
def reqEmptyNotes : TransReq :=
  { status := some Status.confirmed, supplierNotes := some "" }

/-- The order the handler returns for `reqEmptyNotes`: confirmed, with
the notes field untouched. -/
def orderConfNoNotes : Order := { orderPend with status := .confirmed }

/-- Request delivering an order with non-empty notes and eta. -/
def reqDeliver : TransReq :=
  { status := some Status.delivered, supplierNotes := some "on way",
    estimatedDeliveryTime := some "2025-01-01" }

/-- The out-for-delivery order after the delivering transition at time
T1. -/
def orderOutDone : Order :=
  { orderOut with
    status := .delivered, supplierNotes := some "on way",
    estimatedDeliveryTime := some "2025-01-01", actualDeliveryTime := some "T1" }

/-- Three delivered orders of V1/S1, one per review of the [5,3,4]
scenario. -/
def orderRate1 : Order := { orderPend with id := "d1", status := .delivered }

/-- Second delivered order of the [5,3,4] scenario. -/
def orderRate2 : Order := { orderPend with id := "d2", status := .delivered }

/-- Third delivered order of the [5,3,4] scenario. -/
def orderRate3 : Order := { orderPend with id := "d3", status := .delivered }

/-- Stored review with rating 5. -/
def revRate1 : Review :=
  { vendorId := "V1", supplierId := "S1", orderId := "d1", rating := 5 }

/-- Stored review with rating 3. -/
def revRate2 : Review :=
  { vendorId := "V1", supplierId := "S1", orderId := "d2", rating := 3 }

/-- The review with rating 4 submitted third. -/
def revRate3 : Review :=
  { vendorId := "V1", supplierId := "S1", orderId := "d3", rating := 4 }

/-- Store before the third review: ratings [5,3] already stored. -/
def stRate : St :=
  { users := [supS1, vendorV1], orders := [orderRate1, orderRate2, orderRate3],
    reviews := [revRate1, revRate2] }

/-- The third review submission (rating 4 on order d3). -/
def reqRate : ReviewReq := { orderId := "d3", supplierId := "S1", rating := 4 }

/-- The first review submission of the duplicate scenario: rating 5 on
the delivered order o3. -/
def reqRev : ReviewReq := { orderId := "o3", supplierId := "S1", rating := 5 }

/-- The review the first submission stores. -/
def revStored : Review :=
  { vendorId := "V1", supplierId := "S1", orderId := "o3", rating := 5 }

/-- Store before the first review of the duplicate scenario. -/
def stRev : St := { users := [supS1, vendorV1], orders := [orderDone] }

/-- Store after the first review of the duplicate scenario: the review
is stored; the users are unchanged (the rating update never fires). -/
def stRevAfter : St :=
  { users := [supS1, vendorV1], orders := [orderDone],
    reviews := [revStored] }

lemma itemsSubtotal_nil : itemsSubtotal [] = 0 := rfl

lemma itemsSubtotal_append_singleton (l : List OrderItem) (i : OrderItem) :
    itemsSubtotal (l ++ [i]) = itemsSubtotal l + i.unitPrice * (i.quantity : ℚ) := by
  simp [itemsSubtotal]

/-- Invariant of the cart loop: on success, the subtotal grows by
exactly the Σ unitPrice × quantity of the snapshot lines it appends. -/
lemma placeLoop_ok_subtotal (items : List CartItem) :
    ∀ ms s acc ms' s' ois,
      placeLoop ms items s acc = (ms', Except.ok (s', ois)) →
      s' + itemsSubtotal acc = s + itemsSubtotal ois := by
  induction items with
  | nil =>
    intro ms s acc ms' s' ois h
    unfold placeLoop at h
    simp only [Prod.mk.injEq, Except.ok.injEq] at h
    obtain ⟨-, h1, h2⟩ := h
    rw [h1, h2]
  | cons item rest ih =>
    intro ms s acc ms' s' ois h
    unfold placeLoop at h
    split at h
    · simp at h
    · split at h
      · simp at h
      · split at h
        · simp at h
        · have key := ih _ _ _ _ _ _ h
          rw [itemsSubtotal_append_singleton] at key
          linarith [key]

/-- C2: every successful placement has the fixed delivery fee 50, a
subtotal equal to Σ unitPrice × quantity over its item snapshots, a
total equal to subtotal + delivery fee, and status pending. -/
theorem C2_success_totals (st : St) (actor : User) (req : PlaceReq) (oid : String)
    (o : Order) (h : (placeOrder st actor req oid).2 = Except.ok o) :
    o.deliveryFee = 50 ∧ o.subtotal = itemsSubtotal o.items ∧
    o.totalAmount = o.subtotal + o.deliveryFee ∧ o.status = Status.pending := by
  unfold placeOrder at h
  split at h
  · simp at h
  · split at h
    · simp at h
    · cases hL : placeLoop st.materials req.items 0 [] with
    | mk ms r =>
      rw [hL] at h
      cases r with
      | error e => simp at h
      | ok p =>
        obtain ⟨sub, ois⟩ := p
        simp only [Except.ok.injEq] at h
        have hsub := placeLoop_ok_subtotal req.items st.materials 0 [] ms sub ois hL
        rw [itemsSubtotal_nil, add_zero, zero_add] at hsub
        subst h
        exact ⟨rfl, hsub, rfl, rfl⟩

theorem C2_success_totals_witness :
    orderPlaced.deliveryFee = 50 ∧
    orderPlaced.subtotal = itemsSubtotal orderPlaced.items ∧
    orderPlaced.totalAmount = orderPlaced.subtotal + orderPlaced.deliveryFee ∧
    orderPlaced.status = Status.pending :=
  C2_success_totals stPlace vendorV1 reqPlace "o1" orderPlaced
    (by with_unfolding_all decide)

/-- C1 (evidence): the same two-line cart placed when stock(M2)=0 is
rejected with the insufficient-stock error for M2, and no order is
stored — but M1's stock has already been decremented from 10 to 8 and
persisted by the loop, so the failure is not mutation-free: the claim's
"stock of every material in the cart is unchanged" fails on the code. -/
theorem C1_partially_mutated_stock_on_failure :
    materialFindById stPartial.materials "M1" = some matM1 ∧
    matM1.stock = 10 ∧
    (placeOrder stPartial vendorV1 reqPlace "o1").2
      = Except.error (PlaceErr.insufficientStock "M2" 0) ∧
    (placeOrder stPartial vendorV1 reqPlace "o1").1.orders = [] ∧
    materialFindById (placeOrder stPartial vendorV1 reqPlace "o1").1.materials "M1"
      = some { matM1 with stock := 8 } := by
  with_unfolding_all decide

/-- C9: placement never checks that a cart material belongs to the
declared supplier: a cart declaring S2 over a material owned by S1
succeeds, decrements that material's stock from 10 to 8, and stores an
order attributed to S2. -/
theorem C9_no_supplier_ownership_check :
    matM9.supplierId = "S1" ∧ reqOwn.supplierId = "S2" ∧
    orderMis.supplierId = "S2" ∧
    placeOrder stOwn vendorV1 reqOwn "o9" = (stOwnAfter, Except.ok orderMis) := by
  with_unfolding_all decide

/-- C10 (counterexample): the mismatched review naming S2 on a
delivered order of S1 is accepted and stored against S2, but S2's
denormalized rating and count are NOT recomputed from it: S2's user
record keeps rating 0 and count 0, while a recompute from the stored
reviews would give 5.0 and 1 — the claim's recompute conjunct fails
(`updateSupplierRating` dies on the unimported `mongoose` reference
and swallows the error, so `User.findByIdAndUpdate` never runs). -/
theorem C10_rating_recompute_counterexample :
    orderDelM.supplierId = "S1" ∧ reqMisRev.supplierId = "S2" ∧
    (addReview stMis vendorV1 reqMisRev).2 = Except.ok revMis ∧
    (addReview stMis vendorV1 reqMisRev).1.reviews = [revMis] ∧
    (addReview stMis vendorV1 reqMisRev).1.users = [supS1, supS2, vendorV1] ∧
    supS2.rating = 0 ∧ supS2.totalRatings = 0 ∧
    roundTo1
      (((reviewsForSupplier (addReview stMis vendorV1 reqMisRev).1.reviews
            "S2").map (fun r0 => (r0.rating : ℚ))).sum
        / ((reviewsForSupplier (addReview stMis vendorV1 reqMisRev).1.reviews
            "S2").length : ℚ)) = 5 ∧
    (reviewsForSupplier (addReview stMis vendorV1 reqMisRev).1.reviews
        "S2").length = 1 := by
  with_unfolding_all decide

/-- C10 (amended): the review handler never checks that the declared
supplier matches the order's supplier: a review naming S2 on a
delivered order of S1 is accepted and stored against the declared
supplier S2 — and the follow-up rating recompute for S2 has no effect,
leaving every user record unchanged. -/
theorem C10_review_stored_against_declared_supplier :
    orderDelM.supplierId = "S1" ∧ reqMisRev.supplierId = "S2" ∧
    (addReview stMis vendorV1 reqMisRev).2 = Except.ok revMis ∧
    revMis.supplierId = "S2" ∧
    (addReview stMis vendorV1 reqMisRev).1.reviews = [revMis] ∧
    (addReview stMis vendorV1 reqMisRev).1.users = stMis.users := by
  with_unfolding_all decide

/-- The status handler never touches the materials collection, on any
path (it only reads and writes orders). -/
lemma transition_preserves_materials (st : St) (actor : User) (oid : String)
    (req : TransReq) (now : String) :
    ((transition st actor oid req now).1).materials = st.materials := by
  unfold transition
  split
  · rfl
  · split
    · rfl
    · split
      · rfl
      · split
        · rfl
        · rfl

/-- C7: a successful transition to cancelled leaves the whole materials
collection — in particular the stock of every material referenced by
the order's item snapshots — unchanged: the engine never restocks. -/
theorem C7_no_restock_on_cancellation (st : St) (actor : User) (oid : String)
    (req : TransReq) (now : String) (o' : Order)
    (hs : req.status = some Status.cancelled)
    (h : (transition st actor oid req now).2 = Except.ok o') :
    ((transition st actor oid req now).1).materials = st.materials :=
  transition_preserves_materials st actor oid req now

theorem C7_no_restock_on_cancellation_witness :
    ((transition stTrans supS1 "o2" reqCancel "t0").1).materials
      = stTrans.materials :=
  C7_no_restock_on_cancellation stTrans supS1 "o2" reqCancel "t0"
    orderConfCancelled rfl (by with_unfolding_all decide)

/-- C3: with the order looked up and a requested status present, a
transition can succeed only when the requested status is in the
allowed set for the order's current status; an illegal request by the
supplier fails with the error carrying the current and the requested
status; and the allowed sets are exactly the table — in particular
delivered and cancelled allow no transition at all. -/
theorem C3_state_machine (st : St) (actor : User) (oid : String) (req : TransReq)
    (now : String) (o : Order) (ns : Status)
    (ho : findSupplierOrder st.orders oid actor.id = some o)
    (hs : req.status = some ns) :
    ((∃ o', (transition st actor oid req now).2 = Except.ok o') →
        ns ∈ validTransitions o.status) ∧
    (actor.role = Role.supplier → ns ∉ validTransitions o.status →
        (transition st actor oid req now).2
          = Except.error (TransErr.invalidTransition o.status ns)) ∧
    ((o.status = Status.delivered ∨ o.status = Status.cancelled) →
        ¬ ∃ o', (transition st actor oid req now).2 = Except.ok o') ∧
    validTransitions Status.pending = [Status.confirmed, Status.cancelled] ∧
    validTransitions Status.confirmed
      = [Status.out_for_delivery, Status.cancelled] ∧
    validTransitions Status.out_for_delivery = [Status.delivered] ∧
    validTransitions Status.delivered = [] ∧
    validTransitions Status.cancelled = [] := by
  have hmem : (∃ o', (transition st actor oid req now).2 = Except.ok o') →
      ns ∈ validTransitions o.status := by
    rintro ⟨o', h⟩
    unfold transition at h
    split at h
    · simp at h
    · split at h
      · simp at h
      · rename_i ns2 hs2
        split at h
        · simp at h
        · rename_i o2 ho2
          rw [hs] at hs2
          injection hs2 with hs2
          rw [ho] at ho2
          injection ho2 with ho2
          split at h
          · simp at h
          · rename_i hall
            rw [hs2, ho2]
            exact not_not.mp hall
  refine ⟨hmem, ?_, ?_, rfl, rfl, rfl, rfl, rfl⟩
  · intro hrole hnot
    simp [transition, hrole, hs, ho, hnot]
  · intro hterm hex
    have := hmem hex
    rcases hterm with h1 | h1 <;> rw [h1] at this <;> simp [validTransitions] at this

theorem C3_state_machine_witness :
    (transition stTrans supS1 "o3" reqConfirm "t0").2
      = Except.error (TransErr.invalidTransition Status.delivered Status.confirmed) :=
  ((C3_state_machine stTrans supS1 "o3" reqConfirm "t0" orderDone Status.confirmed
      (by with_unfolding_all decide) rfl).2.1) rfl (by decide)

/-- C6: the status handler is supplier-gated and owner-gated: with a
requested status present, a supplier whose id does not match the order
(or an order that does not exist) gets the not-found-or-unauthorized
error; an actor with the vendor role gets the AuthorizationError from
the role middleware; and any success implies the actor is a supplier
owning an order with the requested id. -/
theorem C6_transition_authorization (st : St) (actor : User) (oid : String)
    (req : TransReq) (now : String) (ns : Status)
    (hs : req.status = some ns) :
    (actor.role = Role.supplier →
      (∀ o ∈ st.orders, ¬(o.id = oid ∧ o.supplierId = actor.id)) →
      (transition st actor oid req now).2
        = Except.error TransErr.notFoundOrUnauthorized) ∧
    (actor.role = Role.vendor →
      (transition st actor oid req now).2
        = Except.error TransErr.authorization) ∧
    (∀ o', (transition st actor oid req now).2 = Except.ok o' →
      actor.role = Role.supplier ∧
      ∃ o ∈ st.orders, o.id = oid ∧ o.supplierId = actor.id) := by
  refine ⟨?_, ?_, ?_⟩
  · intro hrole hnone
    have hfind : findSupplierOrder st.orders oid actor.id = none := by
      unfold findSupplierOrder
      rw [List.find?_eq_none]
      intro o hmem
      simpa using hnone o hmem
    simp [transition, hrole, hs, hfind]
  · intro hrole
    have : actor.role ≠ Role.supplier := by rw [hrole]; decide
    simp [transition, this]
  · intro o' h
    unfold transition at h
    split at h
    · simp at h
    · rename_i hrole
      rw [not_not] at hrole
      refine ⟨hrole, ?_⟩
      split at h
      · simp at h
      · split at h
        · simp at h
        · rename_i o2 ho2
          have hmem := List.mem_of_find?_eq_some ho2
          have hpred := List.find?_some ho2
          simp only [decide_eq_true_eq] at hpred
          exact ⟨o2, hmem, hpred⟩

theorem C6_transition_authorization_witness :
    (transition stTrans vendorV1 "o2" reqOut "t0").2
      = Except.error TransErr.authorization :=
  (C6_transition_authorization stTrans vendorV1 "o2" reqOut "t0"
      Status.out_for_delivery rfl).2.1 rfl

/-- C8 (counterexample): a transition request that provides the
supplier notes value `""` succeeds, but the stored order's notes field
stays empty — the handler stores notes only when the provided value
is truthy, so "stored exactly when provided" fails at this input. -/
theorem C8_empty_notes_counterexample :
    reqEmptyNotes.supplierNotes = some "" ∧
    (transition stTrans supS1 "o4" reqEmptyNotes "t0").2
      = Except.ok orderConfNoNotes ∧
    orderConfNoNotes.supplierNotes = none ∧
    orderConfNoNotes.supplierNotes ≠ some "" := by
  with_unfolding_all decide

/-- C8 (amended): on every successful transition the order's status
becomes the requested status; supplier notes are stored exactly when a
non-empty notes value is provided (otherwise the field is unchanged);
the estimated delivery timestamp is stored exactly when a non-empty
eta value is provided (otherwise unchanged); and when the new status
is delivered the actual delivery timestamp is set to the current
time. -/
theorem C8_transition_updates (st : St) (actor : User) (oid : String)
    (req : TransReq) (now : String) (o : Order) (ns : Status) (o' : Order)
    (ho : findSupplierOrder st.orders oid actor.id = some o)
    (hs : req.status = some ns)
    (h : (transition st actor oid req now).2 = Except.ok o') :
    o'.status = ns ∧
    (∀ s, req.supplierNotes = some s → s ≠ "" → o'.supplierNotes = some s) ∧
    ((req.supplierNotes = none ∨ req.supplierNotes = some "") →
        o'.supplierNotes = o.supplierNotes) ∧
    (∀ t, req.estimatedDeliveryTime = some t → t ≠ "" →
        o'.estimatedDeliveryTime = some t) ∧
    ((req.estimatedDeliveryTime = none ∨ req.estimatedDeliveryTime = some "") →
        o'.estimatedDeliveryTime = o.estimatedDeliveryTime) ∧
    (ns = Status.delivered → o'.actualDeliveryTime = some now) ∧
    (ns ≠ Status.delivered → o'.actualDeliveryTime = o.actualDeliveryTime) := by
  unfold transition at h
  split at h
  · simp at h
  · split at h
    · simp at h
    · rename_i ns2 hs2
      split at h
      · simp at h
      · rename_i o2 ho2
        rw [hs] at hs2
        injection hs2 with hs2
        rw [ho] at ho2
        injection ho2 with ho2
        subst hs2
        subst ho2
        split at h
        · simp at h
        · simp only [Except.ok.injEq] at h
          subst h
          refine ⟨?_, ?_, ?_, ?_, ?_, ?_, ?_⟩
          · rcases hn : req.supplierNotes with - | s <;>
              rcases he : req.estimatedDeliveryTime with - | t <;>
              by_cases hd : ns = Status.delivered <;>
              simp_all <;> try (split_ifs <;> simp_all)
          · intro s hsome hne
            rcases he : req.estimatedDeliveryTime with - | t <;>
              by_cases hd : ns = Status.delivered <;>
              simp_all <;> try (split_ifs <;> simp_all)
          · intro hfalsy
            rcases hfalsy with hn | hn <;>
              rcases he : req.estimatedDeliveryTime with - | t <;>
              by_cases hd : ns = Status.delivered <;>
              simp_all <;> try (split_ifs <;> simp_all)
          · intro t hsome hne
            rcases hn : req.supplierNotes with - | s <;>
              by_cases hd : ns = Status.delivered <;>
              simp_all <;> try (split_ifs <;> simp_all)
          · intro hfalsy
            rcases hfalsy with he | he <;>
              rcases hn : req.supplierNotes with - | s <;>
              by_cases hd : ns = Status.delivered <;>
              simp_all <;> try (split_ifs <;> simp_all)
          · intro hd
            rcases hn : req.supplierNotes with - | s <;>
              rcases he : req.estimatedDeliveryTime with - | t <;>
              simp_all <;> try (split_ifs <;> simp_all)
          · intro hd
            rcases hn : req.supplierNotes with - | s <;>
              rcases he : req.estimatedDeliveryTime with - | t <;>
              simp_all <;> try (split_ifs <;> simp_all)

theorem C8_transition_updates_witness :
    orderOutDone.status = Status.delivered ∧
    orderOutDone.supplierNotes = some "on way" ∧
    orderOutDone.estimatedDeliveryTime = some "2025-01-01" ∧
    orderOutDone.actualDeliveryTime = some "T1" := by
  have h := C8_transition_updates stTrans supS1 "o5" reqDeliver "T1" orderOut
      Status.delivered orderOutDone (by with_unfolding_all decide) rfl
      (by with_unfolding_all decide)
  exact ⟨h.1, h.2.1 "on way" rfl (by decide),
    h.2.2.2.1 "2025-01-01" rfl (by decide), h.2.2.2.2.2.1 rfl⟩

/-- C4 (evidence): the third review of the [5,3,4] scenario is
accepted and stored, but the supplier's denormalized rating and count
are never recomputed: S1's user record keeps rating 0 and count 0,
while the recompute the claim (and the spec) describe would give 4.0
and 3 — `updateSupplierRating` dies on the unimported `mongoose`
reference before aggregating and swallows the error, so
`User.findByIdAndUpdate` never runs. -/
theorem C4_rating_never_recomputed :
    (addReview stRate vendorV1 reqRate).2 = Except.ok revRate3 ∧
    (addReview stRate vendorV1 reqRate).1.reviews
      = [revRate1, revRate2, revRate3] ∧
    (addReview stRate vendorV1 reqRate).1.users = [supS1, vendorV1] ∧
    supS1.rating = 0 ∧ supS1.totalRatings = 0 ∧
    roundTo1
      (((reviewsForSupplier (addReview stRate vendorV1 reqRate).1.reviews
            "S1").map (fun r0 => (r0.rating : ℚ))).sum
        / ((reviewsForSupplier (addReview stRate vendorV1 reqRate).1.reviews
            "S1").length : ℚ)) = 4 ∧
    (reviewsForSupplier (addReview stRate vendorV1 reqRate).1.reviews
        "S1").length = 3 := by
  with_unfolding_all decide

/-- When some stored review already has the submitted order id, the
review handler cannot succeed: it leaves the store unchanged, and an
otherwise eligible submission gets exactly the duplicate-review
ConflictError. -/
lemma addReview_duplicate (st : St) (actor2 : User) (req2 : ReviewReq)
    (hdup : ∃ rr ∈ st.reviews, rr.orderId = req2.orderId) :
    (¬ ∃ r2, (addReview st actor2 req2).2 = Except.ok r2) ∧
    (addReview st actor2 req2).1 = st ∧
    (actor2.role = Role.vendor → req2.orderId ≠ "" → req2.supplierId ≠ "" →
      req2.rating ≠ 0 →
      (findEligibleOrder st.orders req2.orderId actor2.id).isSome →
      (addReview st actor2 req2).2 = Except.error ReviewErr.alreadyExists) := by
  obtain ⟨rr, hmem, hrr⟩ := hdup
  have hfind : (st.reviews.find? (fun r => decide (r.orderId = req2.orderId))).isSome := by
    rw [List.find?_isSome]
    exact ⟨rr, hmem, by simp [hrr]⟩
  unfold addReview
  split
  · rename_i hrole
    exact ⟨by simp, rfl, fun hv _ _ _ _ => absurd hv hrole⟩
  · split
    · rename_i hflds
      refine ⟨by simp, rfl, ?_⟩
      intro _ ho hsp hr _
      rcases hflds with h1 | h1 | h1
      · exact absurd h1 ho
      · exact absurd h1 hsp
      · exact absurd h1 hr
    · split
      · rename_i hnone
        refine ⟨by simp, rfl, ?_⟩
        intro _ _ _ _ hsome
        rw [hnone] at hsome
        simp at hsome
      all_goals
        first
          | exact ⟨by simp, rfl, fun _ _ _ _ _ => rfl⟩
          | (rename_i hnodup; exact absurd hfind hnodup)

/-- C5: a successful review submission implies the referenced order
exists, belongs to the submitting vendor and is delivered, and that no
review for that order existed; and afterwards any second submission
naming the same order fails, leaves the store (hence the first stored
review) unchanged, and — when it is otherwise eligible — fails with
exactly the duplicate-review ConflictError. -/
theorem C5_review_eligibility (st : St) (actor : User) (req : ReviewReq)
    (st' : St) (r : Review)
    (h : addReview st actor req = (st', Except.ok r)) :
    (∃ o ∈ st.orders, o.id = req.orderId ∧ o.vendorId = actor.id ∧
        o.status = Status.delivered) ∧
    (∀ r0 ∈ st.reviews, r0.orderId ≠ req.orderId) ∧
    (∀ actor2 req2, req2.orderId = req.orderId →
      (¬ ∃ r2, (addReview st' actor2 req2).2 = Except.ok r2) ∧
      (addReview st' actor2 req2).1 = st' ∧
      (actor2.role = Role.vendor → req2.supplierId ≠ "" → req2.rating ≠ 0 →
        (findEligibleOrder st'.orders req2.orderId actor2.id).isSome →
        (addReview st' actor2 req2).2
          = Except.error ReviewErr.alreadyExists)) := by
  unfold addReview at h
  split at h
  · simp at h
  · split at h
    · simp at h
    · rename_i hflds
      split at h
      · simp at h
      · rename_i o ho
        split at h
        · simp at h
        · rename_i hdup
          simp only [Prod.mk.injEq, Except.ok.injEq] at h
          obtain ⟨hst, hr⟩ := h
          have hoid : req.orderId ≠ "" := by
            intro he
            exact hflds (Or.inl he)
          refine ⟨?_, ?_, ?_⟩
          · have hmem := List.mem_of_find?_eq_some ho
            have hpred := List.find?_some ho
            simp only [decide_eq_true_eq] at hpred
            exact ⟨o, hmem, hpred⟩
          · intro r0 hr0
            have hnone : st.reviews.find?
                (fun r1 => decide (r1.orderId = req.orderId)) = none := by
              rcases ho2 : st.reviews.find?
                  (fun r1 => decide (r1.orderId = req.orderId)) with - | rr
              · exact ho2
              · rw [ho2] at hdup
                simp at hdup
            have := List.find?_eq_none.mp hnone r0 hr0
            simpa using this
          · intro actor2 req2 horder
            have hmemdup : mkReview actor req ∈ st'.reviews := by
              rw [← hst]
              exact List.mem_append_right _ (by simp)
            have hd := addReview_duplicate st' actor2 req2
              ⟨mkReview actor req, hmemdup, by simp [mkReview, horder]⟩
            exact ⟨hd.1, hd.2.1, fun hv hsp hrr hsome =>
              hd.2.2 hv (by rw [horder]; exact hoid) hsp hrr hsome⟩

theorem C5_review_eligibility_witness :
    (addReview stRevAfter vendorV1 reqRev).2
      = Except.error ReviewErr.alreadyExists := by
  have h := C5_review_eligibility stRev vendorV1 reqRev stRevAfter revStored
      (by with_unfolding_all decide)
  exact (h.2.2 vendorV1 reqRev rfl).2.2 rfl (by decide) (by decide)
    (by with_unfolding_all decide)
